import Mathlib

/-!
Verification of the JNI broadcast-radio conversion layer declared in
src/services/core/jni/com_android_server_radio_convert.h.

The header declares four operations in namespace
android::server::radio::convert:

  JavaRef BandConfigFromHal(JNIEnv *env, const V1_0::BandConfig &config, Region region);
  V1_0::BandConfig BandConfigToHal(JNIEnv *env, jobject jConfig, Region &region);
  bool ThrowIfFailed(JNIEnv *env, const hardware::Return<V1_0::Result> &hidlResult);
  bool ThrowIfFailed(JNIEnv *env, const hardware::Return<void> &hidlResult);

Only the declarations are present in the repository fragment, so each
definition below is modelled from the specification of the component
(a pure, stateless, information-preserving translation layer).  JNI
effects are made explicit: a possibly-null managed reference is an
Option, a raised exception is an error value or a component of the
returned pair.
-/

namespace V1_0

/-- Modelled from the spec: the native HAL band-configuration record
(the body of the external type V1_0::BandConfig is not under src/).
It carries the tunable range and the channel spacing step: lower and
upper frequency bounds and the spacing. -/
structure BandConfig where
  lowerLimit : Nat
  upperLimit : Nat
  spacing : Nat
  deriving DecidableEq

/-- Modelled from the spec: the enumerated status code returned by a
native HAL operation (the body of the external type V1_0::Result is
not under src/).  OK is the success code; every other value is a
defined failure code. -/
inductive Result where
  | OK
  | NOT_INITIALIZED
  | INVALID_ARGUMENTS
  | INVALID_STATE
  | TIMEOUT
  deriving DecidableEq

end V1_0

/-- Modelled from the spec: the enumerated geographic broadcast region
supplied out-of-band next to the native record.  The spec names
REGION_ITU_1 and requires the region fold to be information-preserving,
so the model carries the two regions with distinct broadcast
conventions. -/
inductive Region where
  | REGION_ITU_1
  | REGION_ITU_2
  deriving DecidableEq

/-- Modelled from the spec: the FM deemphasis time-constant convention
selected by the region (50 microseconds in ITU region 1, 75 in ITU
region 2). -/
inductive Deemphasis where
  | DEEMPHASIS_50
  | DEEMPHASIS_75
  deriving DecidableEq

/-- Modelled from the spec: the radio-data-system flavour selected by
the region (RDS in ITU region 1, RBDS in ITU region 2). -/
inductive RdsVariant where
  | RDS
  | RBDS
  deriving DecidableEq

/-- Modelled from the spec: the managed (Java-side) band-configuration
object.  It has the same semantic fields as the native record plus the
region-dependent deemphasis and RDS-flavour defaults into which the
region value is folded on decode. -/
structure ManagedBandConfig where
  lowerLimit : Nat
  upperLimit : Nat
  spacing : Nat
  deemphasis : Deemphasis
  rds : RdsVariant
  deriving DecidableEq

/-- Modelled from the spec: the kind of managed-side exception raised
on a failure, classified by the specific result code or by a transport
breakdown, plus the argument error for a null managed reference. -/
inductive ExceptionKind where
  | invalidArgument
  | notInitialized
  | invalidState
  | timeout
  | transportFailure
  deriving DecidableEq

/-- Modelled from the spec: the region-dependent deemphasis default. -/
def regionDeemphasis : Region → Deemphasis
  | Region.REGION_ITU_1 => Deemphasis.DEEMPHASIS_50
  | Region.REGION_ITU_2 => Deemphasis.DEEMPHASIS_75

/-- Modelled from the spec: the region-dependent RDS-flavour default. -/
def regionRds : Region → RdsVariant
  | Region.REGION_ITU_1 => RdsVariant.RDS
  | Region.REGION_ITU_2 => RdsVariant.RBDS

/-- Modelled from the spec: the region value inferred back from the
managed object fields on encode (the managed schema has no inherent
region field, so the region is recovered from the region-dependent
fields). -/
def regionOfManaged (m : ManagedBandConfig) : Region :=
  match m.rds with
  | RdsVariant.RDS => Region.REGION_ITU_1
  | RdsVariant.RBDS => Region.REGION_ITU_2

/-- Modelled from the spec: BandConfigFromHal, the decode direction
(the function body is not under src/, only its declaration at line 37
of the header).  Copies the native fields field-by-field into a newly
constructed managed object and folds the supplied region into the
region-dependent defaults.  No failure path: it is total, and malformed
records are passed through as-is. -/
def BandConfigFromHal (config : V1_0.BandConfig) (region : Region) : ManagedBandConfig :=
  { lowerLimit := config.lowerLimit
    upperLimit := config.upperLimit
    spacing := config.spacing
    deemphasis := regionDeemphasis region
    rds := regionRds region }

/-- Modelled from the spec: BandConfigToHal, the encode direction (the
function body is not under src/, only its declaration at line 38 of the
header).  A null managed reference (none) raises an invalid-argument
error and produces no record; otherwise the equivalent native record is
built field-by-field and the region is extracted from the managed
object. -/
def BandConfigToHal (jConfig : Option ManagedBandConfig) :
    Except ExceptionKind (V1_0.BandConfig × Region) :=
  match jConfig with
  | none => Except.error ExceptionKind.invalidArgument
  | some m =>
      Except.ok
        ({ lowerLimit := m.lowerLimit
           upperLimit := m.upperLimit
           spacing := m.spacing }, regionOfManaged m)

/-- Modelled from the spec: a HAL call result of the transport layer
(the external template hardware::Return is not under src/).  isOk
records whether the call was delivered and completed at the transport
level; value is the payload carried on success (V1_0.Result for the
status-returning shape, Unit for the void shape). -/
structure HidlReturn (α : Type) where
  isOk : Bool
  value : α
  deriving DecidableEq

/-- Modelled from the spec: the normalized outcome of a HAL call, the
single internal value both ThrowIfFailed call shapes funnel into:
either a transport-level breakdown or a completed call carrying its
status code. -/
inductive Outcome where
  | transportFail
  | completed (r : V1_0.Result)
  deriving DecidableEq

/-- Modelled from the spec: the single classification policy mapping a
normalized outcome to no error or to the specific exception kind for
that result code. -/
def classifyOutcome : Outcome → Option ExceptionKind
  | Outcome.transportFail => some ExceptionKind.transportFailure
  | Outcome.completed V1_0.Result.OK => none
  | Outcome.completed V1_0.Result.NOT_INITIALIZED => some ExceptionKind.notInitialized
  | Outcome.completed V1_0.Result.INVALID_ARGUMENTS => some ExceptionKind.invalidArgument
  | Outcome.completed V1_0.Result.INVALID_STATE => some ExceptionKind.invalidState
  | Outcome.completed V1_0.Result.TIMEOUT => some ExceptionKind.timeout

/-- Modelled from the spec: normalization front end for the
status-returning call shape. -/
def outcomeOfResult (hidlResult : HidlReturn V1_0.Result) : Outcome :=
  if hidlResult.isOk then Outcome.completed hidlResult.value else Outcome.transportFail

/-- Modelled from the spec: normalization front end for the
void-returning call shape, which can only fail at the transport
level. -/
def outcomeOfVoid (hidlResult : HidlReturn Unit) : Outcome :=
  if hidlResult.isOk then Outcome.completed V1_0.Result.OK else Outcome.transportFail

/-- Modelled from the spec: ThrowIfFailed for a status-returning call
(declared at line 40 of the header; the body is not under src/).  The
first component is the returned boolean (whether a failure occurred),
the second the exception raised, made explicit. -/
def ThrowIfFailedResult (hidlResult : HidlReturn V1_0.Result) :
    Bool × Option ExceptionKind :=
  let e := classifyOutcome (outcomeOfResult hidlResult)
  (e.isSome, e)

/-- Modelled from the spec: ThrowIfFailed for a void call (declared at
line 41 of the header; the body is not under src/), a thin front end
over the same classification policy. -/
def ThrowIfFailedVoid (hidlResult : HidlReturn Unit) :
    Bool × Option ExceptionKind :=
  let e := classifyOutcome (outcomeOfVoid hidlResult)
  (e.isSome, e)

/-- Modelled from the spec: a managed object is valid for the reverse
round trip when its region-dependent fields are consistent, i.e. its
deemphasis default agrees with the region inferred from its RDS
flavour. -/
def ValidManaged (m : ManagedBandConfig) : Prop :=
  m.deemphasis = regionDeemphasis (regionOfManaged m)

instance (m : ManagedBandConfig) : Decidable (ValidManaged m) := by
  unfold ValidManaged
  infer_instance

/-- Modelled from the spec: the decode call with the final state of its
native argument made explicit.  The C++ declaration receives the native
record by const reference, so the call is read-only on it; the second
component is the record as the caller observes it after the call
returns. -/
def BandConfigFromHalSt (config : V1_0.BandConfig) (region : Region) :
    ManagedBandConfig × V1_0.BandConfig :=
  (BandConfigFromHal config region, config)

/-- The concrete native record of the end-to-end scenario of the spec:
lower bound 87500, upper bound 108000, spacing 100. -/
def fmNative : V1_0.BandConfig :=
  { lowerLimit := 87500, upperLimit := 108000, spacing := 100 }

/-- The managed object the end-to-end scenario expects for the record
fmNative decoded under region 1: same bounds and spacing, 50
microseconds deemphasis and the RDS flavour. -/
def fmManaged : ManagedBandConfig :=
  { lowerLimit := 87500
    upperLimit := 108000
    spacing := 100
    deemphasis := Deemphasis.DEEMPHASIS_50
    rds := RdsVariant.RDS }

/-- A malformed native record whose lower bound exceeds its upper
bound. -/
def invertedNative : V1_0.BandConfig :=
  { lowerLimit := 108000, upperLimit := 87500, spacing := 100 }

/-- C1: encoding the result of decoding is the identity: for every
native record and every region, BandConfigToHal applied to the managed
object produced by BandConfigFromHal returns exactly the original
record together with the original region, field-for-field. -/
theorem BandConfigToHal_left_inverse (config : V1_0.BandConfig) (region : Region) :
    BandConfigToHal (some (BandConfigFromHal config region)) =
      Except.ok (config, region) := by
  cases config
  cases region <;> rfl

/-- C2: ThrowIfFailed on a completed call returns false and raises
nothing for the success code, and for every defined failure code
returns true and raises exactly one exception; the kind matches the
specific code, distinct failure codes raising distinct kinds. -/
theorem ThrowIfFailedResult_classification :
    (ThrowIfFailedResult { isOk := true, value := V1_0.Result.OK } = (false, none)) ∧
    (∀ c : V1_0.Result, c ≠ V1_0.Result.OK →
      ∃ k : ExceptionKind,
        ThrowIfFailedResult { isOk := true, value := c } = (true, some k)) ∧
    (∀ c c' : V1_0.Result, c ≠ c' →
      (ThrowIfFailedResult { isOk := true, value := c }).2 ≠
        (ThrowIfFailedResult { isOk := true, value := c' }).2) := by
  refine ⟨rfl, ?_, ?_⟩
  · intro c hc
    cases c
    · exact absurd rfl hc
    · exact ⟨ExceptionKind.notInitialized, rfl⟩
    · exact ⟨ExceptionKind.invalidArgument, rfl⟩
    · exact ⟨ExceptionKind.invalidState, rfl⟩
    · exact ⟨ExceptionKind.timeout, rfl⟩
  · intro c c' hne
    cases c <;> cases c' <;> first
      | exact absurd rfl hne
      | decide

/-- C2 witness: concrete instances of the classification theorem. -/
theorem ThrowIfFailedResult_classification_witness :
    (∃ k : ExceptionKind,
      ThrowIfFailedResult { isOk := true, value := V1_0.Result.TIMEOUT } = (true, some k)) ∧
    (ThrowIfFailedResult { isOk := true, value := V1_0.Result.TIMEOUT }).2 ≠
      (ThrowIfFailedResult { isOk := true, value := V1_0.Result.INVALID_STATE }).2 :=
  ⟨ThrowIfFailedResult_classification.2.1 V1_0.Result.TIMEOUT (by decide),
   ThrowIfFailedResult_classification.2.2 V1_0.Result.TIMEOUT V1_0.Result.INVALID_STATE
     (by decide)⟩

/-- C3: decoding the result of encoding reproduces the managed object:
for every valid managed object, BandConfigFromHal applied to the
record-and-region pair returned by BandConfigToHal yields the same
managed object field-for-field. -/
theorem BandConfigFromHal_right_inverse (m : ManagedBandConfig) (h : ValidManaged m) :
    Except.map (fun p => BandConfigFromHal p.1 p.2) (BandConfigToHal (some m)) =
      Except.ok m := by
  cases m with
  | mk lo hi sp de rds =>
    cases rds <;>
      · unfold ValidManaged regionOfManaged regionDeemphasis at h
        simp only at h
        subst h
        rfl

/-- C3 witness: the reverse round trip at a concrete valid managed
object. -/
theorem BandConfigFromHal_right_inverse_witness :
    Except.map (fun p => BandConfigFromHal p.1 p.2) (BandConfigToHal (some fmManaged)) =
      Except.ok fmManaged :=
  BandConfigFromHal_right_inverse fmManaged (by decide)

/-- C4: BandConfigToHal on a null managed reference raises the
invalid-argument exception and produces no output record and no region
value. -/
theorem BandConfigToHal_null :
    BandConfigToHal none = Except.error ExceptionKind.invalidArgument := rfl

/-- C5: region dependence: decoding the same native record under two
distinct regions yields managed objects that agree on every
region-independent field (bounds and spacing) and differ in exactly the
region-dependent fields (deemphasis and RDS flavour). -/
theorem BandConfigFromHal_region_dependence (config : V1_0.BandConfig)
    (r1 r2 : Region) (hne : r1 ≠ r2) :
    ((BandConfigFromHal config r1).lowerLimit = (BandConfigFromHal config r2).lowerLimit ∧
     (BandConfigFromHal config r1).upperLimit = (BandConfigFromHal config r2).upperLimit ∧
     (BandConfigFromHal config r1).spacing = (BandConfigFromHal config r2).spacing) ∧
    (BandConfigFromHal config r1).deemphasis ≠ (BandConfigFromHal config r2).deemphasis ∧
    (BandConfigFromHal config r1).rds ≠ (BandConfigFromHal config r2).rds := by
  refine ⟨⟨rfl, rfl, rfl⟩, ?_, ?_⟩ <;>
    cases r1 <;> cases r2 <;> first
      | exact absurd rfl hne
      | exact fun h => Deemphasis.noConfusion h
      | exact fun h => RdsVariant.noConfusion h

/-- C5 witness: region dependence at a concrete record and the two
distinct regions. -/
theorem BandConfigFromHal_region_dependence_witness :
    ((BandConfigFromHal fmNative Region.REGION_ITU_1).lowerLimit =
      (BandConfigFromHal fmNative Region.REGION_ITU_2).lowerLimit ∧
     (BandConfigFromHal fmNative Region.REGION_ITU_1).upperLimit =
      (BandConfigFromHal fmNative Region.REGION_ITU_2).upperLimit ∧
     (BandConfigFromHal fmNative Region.REGION_ITU_1).spacing =
      (BandConfigFromHal fmNative Region.REGION_ITU_2).spacing) ∧
    (BandConfigFromHal fmNative Region.REGION_ITU_1).deemphasis ≠
      (BandConfigFromHal fmNative Region.REGION_ITU_2).deemphasis ∧
    (BandConfigFromHal fmNative Region.REGION_ITU_1).rds ≠
      (BandConfigFromHal fmNative Region.REGION_ITU_2).rds :=
  BandConfigFromHal_region_dependence fmNative
    Region.REGION_ITU_1 Region.REGION_ITU_2 (by decide)

/-- C6: the two ThrowIfFailed call shapes apply the same classification
policy: for the same underlying transport failure, the status-returning
shape and the void shape return the same boolean and raise an exception
of the same kind. -/
theorem ThrowIfFailed_shapes_agree (s : HidlReturn V1_0.Result) (v : HidlReturn Unit)
    (hs : s.isOk = false) (hv : v.isOk = false) :
    ThrowIfFailedResult s = ThrowIfFailedVoid v := by
  simp [ThrowIfFailedResult, ThrowIfFailedVoid, outcomeOfResult, outcomeOfVoid, hs, hv]

/-- C6 witness: both call shapes at a concrete transport failure. -/
theorem ThrowIfFailed_shapes_agree_witness :
    ThrowIfFailedResult { isOk := false, value := V1_0.Result.OK } =
      ThrowIfFailedVoid { isOk := false, value := () } :=
  ThrowIfFailed_shapes_agree { isOk := false, value := V1_0.Result.OK }
    { isOk := false, value := () } rfl rfl

/-- C7: BandConfigFromHal has no failure path and is pass-through: for
every native record, well-formed or malformed, and every region, the
bounds and spacing of the produced managed object are copied as-is from
the record; in particular the inverted record with lower bound 108000
above upper bound 87500 is converted unchanged rather than rejected or
corrected. -/
theorem BandConfigFromHal_pass_through (config : V1_0.BandConfig) (region : Region) :
    ((BandConfigFromHal config region).lowerLimit = config.lowerLimit ∧
     (BandConfigFromHal config region).upperLimit = config.upperLimit ∧
     (BandConfigFromHal config region).spacing = config.spacing) ∧
    ((BandConfigFromHal invertedNative region).lowerLimit = 108000 ∧
     (BandConfigFromHal invertedNative region).upperLimit = 87500 ∧
     (BandConfigFromHal invertedNative region).spacing = 100) :=
  ⟨⟨rfl, rfl, rfl⟩, rfl, rfl, rfl⟩

/-- C8: all conversion and result-check operations are modelled as pure
functions: two calls with equal inputs produce equal outputs and the
same raise or no-raise outcome, and no call touches state beyond its
output value. -/
theorem convert_deterministic (n n' : V1_0.BandConfig) (r r' : Region)
    (m m' : Option ManagedBandConfig)
    (s s' : HidlReturn V1_0.Result) (v v' : HidlReturn Unit)
    (hn : n = n') (hr : r = r') (hm : m = m') (hs : s = s') (hv : v = v') :
    BandConfigFromHal n r = BandConfigFromHal n' r' ∧
    BandConfigToHal m = BandConfigToHal m' ∧
    ThrowIfFailedResult s = ThrowIfFailedResult s' ∧
    ThrowIfFailedVoid v = ThrowIfFailedVoid v' := by
  subst hn hr hm hs hv
  exact ⟨rfl, rfl, rfl, rfl⟩

/-- C8 witness: determinism at concrete equal inputs. -/
theorem convert_deterministic_witness :
    BandConfigFromHal fmNative Region.REGION_ITU_1 =
      BandConfigFromHal fmNative Region.REGION_ITU_1 ∧
    BandConfigToHal (some fmManaged) = BandConfigToHal (some fmManaged) ∧
    ThrowIfFailedResult { isOk := true, value := V1_0.Result.OK } =
      ThrowIfFailedResult { isOk := true, value := V1_0.Result.OK } ∧
    ThrowIfFailedVoid { isOk := true, value := () } =
      ThrowIfFailedVoid { isOk := true, value := () } :=
  convert_deterministic fmNative fmNative Region.REGION_ITU_1 Region.REGION_ITU_1
    (some fmManaged) (some fmManaged)
    { isOk := true, value := V1_0.Result.OK } { isOk := true, value := V1_0.Result.OK }
    { isOk := true, value := () } { isOk := true, value := () }
    rfl rfl rfl rfl rfl

/-- C9: end-to-end scenario: the native record with lower bound 87500,
upper bound 108000 and spacing 100, decoded with region 1, yields a
managed object with the same bounds and spacing and the region-1
deemphasis and RDS defaults, and encoding that managed object returns
the identical native record together with region 1. -/
theorem end_to_end_itu1 :
    BandConfigFromHal fmNative Region.REGION_ITU_1 = fmManaged ∧
    BandConfigToHal (some fmManaged) = Except.ok (fmNative, Region.REGION_ITU_1) := by
  exact ⟨rfl, rfl⟩

/-- C10: the decode direction is read-only on its native argument:
after a call of BandConfigFromHal, made explicit by the state-passing
form BandConfigFromHalSt, the native record is unchanged and the
managed result is that of the pure call. -/
theorem BandConfigFromHal_input_unchanged (config : V1_0.BandConfig) (region : Region) :
    (BandConfigFromHalSt config region).2 = config ∧
    (BandConfigFromHalSt config region).1 = BandConfigFromHal config region :=
  ⟨rfl, rfl⟩
